import Mathlib

/-
  Verification of the per-call session orchestrator in src/server.js
  (AI receptionist bridging Twilio media streams to AI services).

  The WebSocket message handler (src/server.js lines 106-159) is embedded
  as a pure state-transition function.  The three remote capability
  adapters (speech-to-text, chat completion, text-to-speech), the SMS
  dispatcher outcome and the business-hours policy evaluation are
  external, fallible collaborators: their responses for a given event
  are supplied by an `Oracle`, so that the handler itself is a total
  function of (config, oracle, session state, raw frame).

  Observable actions (adapter invocations, outbound frames, dispatches,
  logging, socket close, an exception escaping the handler uncaught)
  are recorded as an ordered `Effect` trace.

  A second, small-step model (`stepTask` / `runWorld`) embeds the same
  handler segmented at its `await` points, which is how Node executes
  the async handler: each message spawns a run of segments, and segments
  of different in-flight handlers may interleave at await boundaries.
  This model settles the concurrency/termination claims.
-/

namespace Pritcall

/-- Conversation roles, as in the objects pushed onto `conversation`. -/
inductive Role
  | system
  | user
  | assistant
deriving DecidableEq, Repr

/-- One message of the conversation transcript. -/
structure Turn where
  role : Role
  content : String
deriving DecidableEq, Repr

/-- Process-wide configuration read from the environment at startup.
An empty string models an unset (or empty, both JS-falsy) variable. -/
structure Config where
  systemPrompt : String
  calendlyLink : String
  callerPhone : String
  twilioNumber : String
deriving DecidableEq, Repr

/-- Responses of the external collaborators for one event's processing:
raw transcription result, raw chat-completion content (`none` models a
null `content` field), speech-synthesis result, SMS dispatch outcome,
and the business-hours policy value at the instant the event is
processed (src/server.js line 123 calls `isBusinessHours()` with the
current time). -/
structure Oracle where
  sttRaw : String → Except Unit String
  completeRaw : List Turn → Except Unit (Option String)
  tts : String → Except Unit String
  smsOk : Bool
  businessHours : Bool

/-- JS `String.prototype.trim`: strip leading and trailing whitespace. -/
def jsTrim (s : String) : String :=
  ⟨((s.data.dropWhile Char.isWhitespace).reverse.dropWhile Char.isWhitespace).reverse⟩

/-- `speechToText` (src/server.js lines 75-82): returns
`(resp.data || '').trim()`, so the result is already trimmed. -/
def speechToText (o : Oracle) (audio : String) : Except Unit String :=
  (o.sttRaw audio).map jsTrim

/-- `chatCompletion` (src/server.js lines 89-96): returns
`completion.data.choices[0].message.content || ''`, so a null/empty
content becomes the empty string. -/
def chatCompletion (o : Oracle) (conversation : List Turn) : Except Unit String :=
  (o.completeRaw conversation).map (fun c => c.getD "")

/-- `textToSpeech` (src/server.js lines 59-68): synthesis adapter call. -/
def textToSpeech (o : Oracle) (text : String) : Except Unit String :=
  o.tts text

/-- The fixed after-hours message (src/server.js line 124). -/
def afterHoursText : String :=
  "Our office hours are Monday through Friday, 8 AM to 6 PM Pacific. Please state your name, phone number, and a brief description of your matter, and we will return your call during the next business day."

/-- The SMS body template (src/server.js line 141). -/
def smsBody (link : String) : String :=
  "Please use this link to schedule your paid consultation: " ++ link

/-- JS regex word characters: `[A-Za-z0-9_]` (the class behind `\b`). -/
def isWordChar (c : Char) : Bool :=
  c.isAlphanum || c == '_'

/-- Whether `w` is a prefix of `s` (character lists). -/
def listStartsWith : List Char → List Char → Bool
  | [], _ => true
  | _ :: _, [] => false
  | w :: ws, c :: cs => w == c && listStartsWith ws cs

/-- Whether `word` occurs at the head of `s` with a word boundary
immediately after it (end of string or a non-word character). -/
def wordHere (word s : List Char) : Bool :=
  listStartsWith word s &&
    (match s.drop word.length with
     | [] => true
     | c :: _ => !isWordChar c)

/-- Search `s` for an occurrence of `word` delimited by word boundaries
on both sides; `prevIsWord` says whether the character before the
current position is a word character. -/
def wordSearchAux (word : List Char) (prevIsWord : Bool) : List Char → Bool
  | [] => !prevIsWord && wordHere word []
  | c :: cs =>
    (!prevIsWord && wordHere word (c :: cs)) || wordSearchAux word (isWordChar c) cs

/-- The keyword scan of src/server.js line 136:
`/\bschedule\b|\bbook\b/.test(assistantText.toLowerCase())`.
Both alternatives are whole-word matches against the lowercased text. -/
def keywordRegexTest (s : String) : Bool :=
  wordSearchAux "schedule".data false (s.data.map Char.toLower) ||
    wordSearchAux "book".data false (s.data.map Char.toLower)

/-- Whether `needle` occurs anywhere in `s` as a contiguous sublist. -/
def containsSublist (needle : List Char) : List Char → Bool
  | [] => listStartsWith needle []
  | c :: cs => listStartsWith needle (c :: cs) || containsSublist needle cs

/-- Modelled from the spec's words (not from the source), for comparison
with `keywordRegexTest`: case-insensitive containment of the substrings
"schedule" or "book" anywhere in the text, so that e.g. "booking" and
"reschedule" qualify. -/
def specKeywordSubstringCI (s : String) : Bool :=
  containsSublist "schedule".data (s.data.map Char.toLower) ||
    containsSublist "book".data (s.data.map Char.toLower)

/-- Per-call session state: the `conversation` array and the
`callActive` flag of the websocket route (src/server.js lines 107-109). -/
structure Session where
  conversation : List Turn
  callActive : Bool
deriving DecidableEq, Repr

/-- Session state created when a connection is accepted
(src/server.js lines 107-109). -/
def initialSession (cfg : Config) : Session :=
  { conversation := [⟨Role.system, cfg.systemPrompt⟩], callActive := true }

/-- An inbound websocket frame, after the `JSON.parse` attempt:
either the raw text is not valid JSON (`invalidJson`, in which case
`JSON.parse` on line 113 throws outside the try/catch), or it parsed
to an object with an `event` tag and an optional `media.payload`
string (`none` models a missing `media` object or payload, whose
access on line 116 throws a TypeError inside the try). -/
inductive RawFrame
  | invalidJson
  | parsed (event : String) (mediaPayload : Option String)
deriving DecidableEq, Repr

/-- Observable actions of one handler run, in program order. -/
inductive Effect
  | sttCall
  | completionCall (args : List Turn)
  | ttsCall (text : String)
  | dispatchCall (dest : String) (body : String)
  | send (payload : String)
  | close
  | log (msg : String)
  | uncaught
deriving DecidableEq, Repr

/-- Whether an effect is an SMS dispatch (`twilioClient.messages.create`). -/
def isDispatchCall : Effect → Bool
  | Effect.dispatchCall _ _ => true
  | _ => false

/-- Whether an effect is a completion-engine invocation. -/
def isCompletionCall : Effect → Bool
  | Effect.completionCall _ => true
  | _ => false

/-- Whether an effect is a `console.error` log. -/
def isLogEffect : Effect → Bool
  | Effect.log _ => true
  | _ => false

/-- Whether an effect is an outbound media frame. -/
def isSendEffect : Effect → Bool
  | Effect.send _ => true
  | _ => false

/-- Whether an effect is an exception escaping the handler uncaught. -/
def isUncaughtEffect : Effect → Bool
  | Effect.uncaught => true
  | _ => false

/-- Big-step embedding of the `connection.socket.on('message')` handler
(src/server.js lines 111-158), run to completion in isolation.  Returns
the updated session and the ordered effect trace.

Branch structure mirrors the source exactly:
line 112 `if (!callActive) return`;
line 113 `JSON.parse` (throws uncaught on invalid JSON — outside the try);
line 114 `media` branch with try/catch around lines 116-150;
line 116 payload access (TypeError caught when `media` is missing);
line 118 `speechToText`; line 119 `if (!userText) return`;
line 120 push user turn; line 123 after-hours check;
lines 124-128 after-hours reply; lines 132-133 completion + push;
lines 136-146 keyword scan and guarded SMS dispatch with inner
try/catch; lines 149-150 TTS + send; lines 151-153 catch → log;
lines 154-156 `stop` branch. -/
def handleMessage (cfg : Config) (o : Oracle) (st : Session) (raw : RawFrame) :
    Session × List Effect :=
  if !st.callActive then (st, [])
  else
    match raw with
    | RawFrame.invalidJson => (st, [Effect.uncaught])
    | RawFrame.parsed ev mediaPayload =>
      if ev == "media" then
        match mediaPayload with
        | none => (st, [Effect.log "Error processing media"])
        | some payload =>
          match speechToText o payload with
          | Except.error _ => (st, [Effect.sttCall, Effect.log "Error processing media"])
          | Except.ok userText =>
            if userText == "" then (st, [Effect.sttCall])
            else
              let conv1 := st.conversation ++ [⟨Role.user, userText⟩]
              if !o.businessHours then
                match textToSpeech o afterHoursText with
                | Except.error _ =>
                  ({ st with conversation := conv1 },
                   [Effect.sttCall, Effect.ttsCall afterHoursText,
                    Effect.log "Error processing media"])
                | Except.ok pcm =>
                  ({ st with conversation := conv1 ++ [⟨Role.assistant, afterHoursText⟩] },
                   [Effect.sttCall, Effect.ttsCall afterHoursText, Effect.send pcm])
              else
                match chatCompletion o conv1 with
                | Except.error _ =>
                  ({ st with conversation := conv1 },
                   [Effect.sttCall, Effect.completionCall conv1,
                    Effect.log "Error processing media"])
                | Except.ok assistantText =>
                  let conv2 := conv1 ++ [⟨Role.assistant, assistantText⟩]
                  let dispatchFx : List Effect :=
                    if keywordRegexTest assistantText && !(cfg.calendlyLink == "")
                        && !(cfg.callerPhone == "") then
                      if o.smsOk then
                        [Effect.dispatchCall cfg.callerPhone (smsBody cfg.calendlyLink)]
                      else
                        [Effect.dispatchCall cfg.callerPhone (smsBody cfg.calendlyLink),
                         Effect.log "Failed to send SMS"]
                    else []
                  match textToSpeech o assistantText with
                  | Except.error _ =>
                    ({ st with conversation := conv2 },
                     [Effect.sttCall, Effect.completionCall conv1] ++ dispatchFx ++
                       [Effect.ttsCall assistantText, Effect.log "Error processing media"])
                  | Except.ok pcm =>
                    ({ st with conversation := conv2 },
                     [Effect.sttCall, Effect.completionCall conv1] ++ dispatchFx ++
                       [Effect.ttsCall assistantText, Effect.send pcm])
      else if ev == "stop" then
        ({ st with callActive := false }, [Effect.close])
      else (st, [])

/-- Sequential processing of a list of inbound events (each with the
collaborator responses in force when it is processed). -/
def runEvents (cfg : Config) : Session → List (Oracle × RawFrame) → Session
  | st, [] => st
  | st, (o, raw) :: rest => runEvents cfg (handleMessage cfg o st raw).1 rest

/-
  Small-step model.  The async handler is cut at its `await` points
  (speechToText, textToSpeech, chatCompletion, messages.create): each
  inbound message starts one task; a task's program counter records
  which await it is suspended at, together with the data its
  continuation closes over.  Each segment runs atomically against the
  shared session state, exactly as Node runs the handler's code between
  awaits.
-/

/-- Program counter of one in-flight handler run: which await the run
is suspended at, with the values its continuation captured. -/
inductive TaskPC
  | start (raw : RawFrame)
  | awaitingStt (payload : String)
  | awaitingTtsAfterHours
  | awaitingCompletion (args : List Turn)
  | awaitingSms (assistantText : String)
  | awaitingTts (assistantText : String)
deriving DecidableEq, Repr

/-- Run one atomic segment of a handler task: the code of
src/server.js lines 111-158 between two consecutive awaits.  Returns
the updated shared session, the effects of the segment, and the next
program counter (`none` when the run returned or was caught). -/
def stepTask (cfg : Config) (o : Oracle) (st : Session) :
    TaskPC → Session × List Effect × Option TaskPC
  | TaskPC.start raw =>
    if !st.callActive then (st, [], none)
    else
      match raw with
      | RawFrame.invalidJson => (st, [Effect.uncaught], none)
      | RawFrame.parsed ev mediaPayload =>
        if ev == "media" then
          match mediaPayload with
          | none => (st, [Effect.log "Error processing media"], none)
          | some payload => (st, [Effect.sttCall], some (TaskPC.awaitingStt payload))
        else if ev == "stop" then
          ({ st with callActive := false }, [Effect.close], none)
        else (st, [], none)
  | TaskPC.awaitingStt payload =>
    match speechToText o payload with
    | Except.error _ => (st, [Effect.log "Error processing media"], none)
    | Except.ok userText =>
      if userText == "" then (st, [], none)
      else
        let conv1 := st.conversation ++ [⟨Role.user, userText⟩]
        if !o.businessHours then
          ({ st with conversation := conv1 },
           [Effect.ttsCall afterHoursText], some TaskPC.awaitingTtsAfterHours)
        else
          ({ st with conversation := conv1 },
           [Effect.completionCall conv1], some (TaskPC.awaitingCompletion conv1))
  | TaskPC.awaitingTtsAfterHours =>
    match textToSpeech o afterHoursText with
    | Except.error _ => (st, [Effect.log "Error processing media"], none)
    | Except.ok pcm =>
      ({ st with conversation := st.conversation ++ [⟨Role.assistant, afterHoursText⟩] },
       [Effect.send pcm], none)
  | TaskPC.awaitingCompletion args =>
    match chatCompletion o args with
    | Except.error _ => (st, [Effect.log "Error processing media"], none)
    | Except.ok assistantText =>
      let st' := { st with conversation := st.conversation ++ [⟨Role.assistant, assistantText⟩] }
      if keywordRegexTest assistantText && !(cfg.calendlyLink == "")
          && !(cfg.callerPhone == "") then
        (st', [Effect.dispatchCall cfg.callerPhone (smsBody cfg.calendlyLink)],
         some (TaskPC.awaitingSms assistantText))
      else
        (st', [Effect.ttsCall assistantText], some (TaskPC.awaitingTts assistantText))
  | TaskPC.awaitingSms assistantText =>
    if o.smsOk then
      (st, [Effect.ttsCall assistantText], some (TaskPC.awaitingTts assistantText))
    else
      (st, [Effect.log "Failed to send SMS", Effect.ttsCall assistantText],
       some (TaskPC.awaitingTts assistantText))
  | TaskPC.awaitingTts assistantText =>
    match textToSpeech o assistantText with
    | Except.error _ => (st, [Effect.log "Error processing media"], none)
    | Except.ok pcm => (st, [Effect.send pcm], none)

/-- One handler run: its collaborator responses and its current
suspension point (`none` once finished). -/
structure Task where
  oracle : Oracle
  pc : Option TaskPC

/-- Shared state of one connection: the session, the in-flight tasks
(in message-arrival order) and the accumulated effect trace. -/
structure World where
  session : Session
  tasks : List Task
  trace : List Effect

/-- Run one segment of task `i` (no-op on an absent or finished task). -/
def stepWorld (cfg : Config) (w : World) (i : Nat) : World :=
  match w.tasks.get? i with
  | none => w
  | some t =>
    match t.pc with
    | none => w
    | some pc =>
      let r := stepTask cfg t.oracle w.session pc
      { session := r.1,
        tasks := w.tasks.set i { t with pc := r.2.2 },
        trace := w.trace ++ r.2.1 }

/-- Run the segments named by a schedule, in order. -/
def runWorld (cfg : Config) (w : World) : List Nat → World
  | [] => w
  | i :: rest => runWorld cfg (stepWorld cfg w i) rest

/-- Whether task `i` exists and is not finished. -/
def liveAt (w : World) (i : Nat) : Bool :=
  match w.tasks.get? i with
  | some t => t.pc.isSome
  | none => false

/-- Every schedule entry steps a live task at the time it runs. -/
def schedOk (cfg : Config) : World → List Nat → Bool
  | _, [] => true
  | w, i :: rest => liveAt w i && schedOk cfg (stepWorld cfg w i) rest

/-- Strict increase of a list of naturals. -/
def strictlyIncreasingNat : List Nat → Bool
  | [] => true
  | [_] => true
  | a :: b :: rest => Nat.blt a b && strictlyIncreasingNat (b :: rest)

/-- Tasks take their first segment (the synchronous part of the message
handler) in message-arrival order: first occurrences of 0..n-1 in the
schedule are strictly increasing. -/
def startsInOrder (sched : List Nat) (n : Nat) : Bool :=
  strictlyIncreasingNat ((List.range n).map (fun i => sched.findIdx (fun x => x == i)))

/-- A schedule the Node event loop can realize for `n` arrived
messages: segments of each task in task order (enforced by `stepTask`
consuming the pc), message handlers entered in arrival order, and only
live tasks stepped.  Between awaits any interleaving is possible, since
the awaited network calls resolve at arbitrary external times. -/
def validSched (cfg : Config) (w : World) (n : Nat) (sched : List Nat) : Bool :=
  schedOk cfg w sched && startsInOrder sched n

/-
  Concrete fixtures used by counterexamples and witnesses.
-/

/-- Configuration with neither follow-up setting present. -/
def cfg0 : Config :=
  { systemPrompt := "You are the receptionist for The Law Offices of Pritpal Singh.",
    calendlyLink := "", callerPhone := "", twilioNumber := "" }

/-- Configuration with both follow-up settings present. -/
def cfgFull : Config :=
  { systemPrompt := "You are the receptionist for The Law Offices of Pritpal Singh.",
    calendlyLink := "https://calendly.example/intake",
    callerPhone := "+15550001111", twilioNumber := "+15550002222" }

/-- Oracle: transcription "Alpha", reply "Reply to Alpha", synthesis ok. -/
def oAlpha : Oracle :=
  { sttRaw := fun _ => Except.ok "Alpha",
    completeRaw := fun _ => Except.ok (some "Reply to Alpha"),
    tts := fun _ => Except.ok "pcmAlpha", smsOk := true, businessHours := true }

/-- Oracle: transcription "Bravo", reply "Reply to Bravo", synthesis ok. -/
def oBravo : Oracle :=
  { sttRaw := fun _ => Except.ok "Bravo",
    completeRaw := fun _ => Except.ok (some "Reply to Bravo"),
    tts := fun _ => Except.ok "pcmBravo", smsOk := true, businessHours := true }

/-- Oracle whose completion reply contains "booking" (the substring
"book", but not the whole word). -/
def oBooking : Oracle :=
  { sttRaw := fun _ => Except.ok "Alpha",
    completeRaw := fun _ => Except.ok (some "Thanks for booking a consultation."),
    tts := fun _ => Except.ok "pcmBooking", smsOk := true, businessHours := true }

/-- Oracle whose completion reply contains the whole word "schedule". -/
def oSchedule : Oracle :=
  { sttRaw := fun _ => Except.ok "Alpha",
    completeRaw := fun _ => Except.ok (some "We can schedule a consultation."),
    tts := fun _ => Except.ok "pcmSchedule", smsOk := true, businessHours := true }

/-- Oracle whose completion call fails. -/
def oCompletionFail : Oracle :=
  { sttRaw := fun _ => Except.ok "Alpha",
    completeRaw := fun _ => Except.error (),
    tts := fun _ => Except.ok "pcm", smsOk := true, businessHours := true }

/-- Oracle whose transcription is whitespace only. -/
def oBlankStt : Oracle :=
  { sttRaw := fun _ => Except.ok "   ",
    completeRaw := fun _ => Except.ok (some "unused"),
    tts := fun _ => Except.ok "pcm", smsOk := true, businessHours := true }

/-- Oracle whose completion succeeds with a null content field. -/
def oEmptyReply : Oracle :=
  { sttRaw := fun _ => Except.ok "Alpha",
    completeRaw := fun _ => Except.ok none,
    tts := fun _ => Except.ok "pcmEmpty", smsOk := true, businessHours := true }

/-- Oracle for an event processed outside business hours. -/
def oAfterHours : Oracle :=
  { sttRaw := fun _ => Except.ok "Alpha",
    completeRaw := fun _ => Except.ok (some "unused"),
    tts := fun _ => Except.ok "pcmAfterHours", smsOk := true, businessHours := false }

/-- A media frame carrying payload "payloadA". -/
def mediaFrameA : RawFrame := RawFrame.parsed "media" (some "payloadA")

/-- A media frame carrying payload "payloadB". -/
def mediaFrameB : RawFrame := RawFrame.parsed "media" (some "payloadB")

/-- A stop frame. -/
def stopFrame : RawFrame := RawFrame.parsed "stop" none

/-- Two media messages arrived on one connection, neither processed yet. -/
def worldTwoMedia : World :=
  { session := initialSession cfg0,
    tasks := [{ oracle := oAlpha, pc := some (TaskPC.start mediaFrameA) },
              { oracle := oBravo, pc := some (TaskPC.start mediaFrameB) }],
    trace := [] }

/-- A schedule in which the second media event's whole pipeline runs
while the first is suspended at its transcription await. -/
def schedSwap : List Nat := [0, 1, 1, 1, 1, 0, 0, 0]

/-- A media message followed by a stop message on one connection. -/
def worldInflightStop : World :=
  { session := initialSession cfg0,
    tasks := [{ oracle := oAlpha, pc := some (TaskPC.start mediaFrameA) },
              { oracle := oAlpha, pc := some (TaskPC.start stopFrame) }],
    trace := [] }

/-- The media task runs up to its completion await, then the stop frame
is handled. -/
def schedStopPrefix : List Nat := [0, 0, 1]

/-- As `schedStopPrefix`, then the in-flight media task resumes and
finishes. -/
def schedStopFull : List Nat := [0, 0, 1, 0, 0]

/-
  Helper lemmas.
-/

/-- Characterization of one handler run on a media frame in `ACTIVE`
state with a non-empty transcription, inside business hours, with a
successful completion: the user and assistant turns are appended and
the effect trace is transcription, completion, the guarded dispatch,
then synthesis and (on success) the outbound frame. -/
theorem handleMessage_business_eq (cfg : Config) (o : Oracle) (st : Session)
    (payload u t : String)
    (hA : st.callActive = true)
    (hstt : speechToText o payload = Except.ok u)
    (hu : (u == "") = false)
    (hbh : o.businessHours = true)
    (hcomp : chatCompletion o (st.conversation ++ [⟨Role.user, u⟩]) = Except.ok t) :
    handleMessage cfg o st (RawFrame.parsed "media" (some payload)) =
      ({ st with conversation := st.conversation ++ [⟨Role.user, u⟩, ⟨Role.assistant, t⟩] },
       [Effect.sttCall, Effect.completionCall (st.conversation ++ [⟨Role.user, u⟩])] ++
         (if keywordRegexTest t && !(cfg.calendlyLink == "") && !(cfg.callerPhone == "") then
            (if o.smsOk then [Effect.dispatchCall cfg.callerPhone (smsBody cfg.calendlyLink)]
             else [Effect.dispatchCall cfg.callerPhone (smsBody cfg.calendlyLink),
                   Effect.log "Failed to send SMS"])
          else []) ++
         (match textToSpeech o t with
          | Except.error _ => [Effect.ttsCall t, Effect.log "Error processing media"]
          | Except.ok pcm => [Effect.ttsCall t, Effect.send pcm])) := by
  unfold handleMessage
  simp only [hA, Bool.not_true, Bool.false_eq_true, if_false, ite_false, hstt, hbh,
    beq_self_eq_true, if_true, ite_true]
  rw [if_neg (by simp [hu])]
  simp only [hcomp]
  cases htts : textToSpeech o t <;>
    simp [htts, List.append_assoc]

/-- Characterization of one handler run on a media frame in `ACTIVE`
state with a non-empty transcription, outside business hours: the after
hours branch synthesizes the fixed message first and appends/sends only
when synthesis succeeds; neither the completion engine nor the
dispatcher is reached. -/
theorem handleMessage_afterHours_eq (cfg : Config) (o : Oracle) (st : Session)
    (payload u : String)
    (hA : st.callActive = true)
    (hstt : speechToText o payload = Except.ok u)
    (hu : (u == "") = false)
    (hbh : o.businessHours = false) :
    handleMessage cfg o st (RawFrame.parsed "media" (some payload)) =
      (match textToSpeech o afterHoursText with
       | Except.error _ =>
         ({ st with conversation := st.conversation ++ [⟨Role.user, u⟩] },
          [Effect.sttCall, Effect.ttsCall afterHoursText, Effect.log "Error processing media"])
       | Except.ok pcm =>
         ({ st with conversation :=
              st.conversation ++ [⟨Role.user, u⟩, ⟨Role.assistant, afterHoursText⟩] },
          [Effect.sttCall, Effect.ttsCall afterHoursText, Effect.send pcm])) := by
  unfold handleMessage
  simp only [hA, Bool.not_true, Bool.false_eq_true, if_false, ite_false, hstt, hbh,
    beq_self_eq_true, if_true, ite_true]
  rw [if_neg (by simp [hu])]
  cases htts : textToSpeech o afterHoursText <;>
    simp [htts, List.append_assoc]

/-- Every handler run only appends to the conversation, and every
appended turn has role `user` or `assistant`. -/
theorem handleMessage_extends (cfg : Config) (o : Oracle) (st : Session) (raw : RawFrame) :
    ∃ extra : List Turn,
      (handleMessage cfg o st raw).1.conversation = st.conversation ++ extra ∧
      extra.all (fun t => !(t.role == Role.system)) = true := by
  unfold handleMessage
  by_cases hA : st.callActive = true
  case neg =>
    have : (!st.callActive) = true := by
      cases hb : st.callActive
      · rfl
      · exact absurd hb hA
    rw [if_pos this]
    exact ⟨[], by simp⟩
  case pos =>
    rw [if_neg (by simp [hA])]
    cases raw with
    | invalidJson => exact ⟨[], by simp⟩
    | parsed ev mediaPayload =>
      dsimp only
      by_cases hev : ev == "media"
      case neg =>
        rw [if_neg hev]
        by_cases hst : ev == "stop"
        · rw [if_pos hst]; exact ⟨[], by simp⟩
        · rw [if_neg hst]; exact ⟨[], by simp⟩
      case pos =>
        rw [if_pos hev]
        cases mediaPayload with
        | none => exact ⟨[], by simp⟩
        | some payload =>
          cases hstt : speechToText o payload with
          | error e => simp only [hstt]; exact ⟨[], by simp⟩
          | ok userText =>
            simp only [hstt]
            by_cases hu : userText == ""
            case pos => rw [if_pos hu]; exact ⟨[], by simp⟩
            case neg =>
              rw [if_neg hu]
              by_cases hbh : o.businessHours = true
              case neg =>
                have : (!o.businessHours) = true := by
                  cases hb : o.businessHours
                  · rfl
                  · exact absurd hb hbh
                rw [if_pos this]
                cases htts : textToSpeech o afterHoursText with
                | error e =>
                  simp only [htts]
                  exact ⟨[⟨Role.user, userText⟩], by simp⟩
                | ok pcm =>
                  simp only [htts]
                  exact ⟨[⟨Role.user, userText⟩, ⟨Role.assistant, afterHoursText⟩], by simp⟩
              case pos =>
                rw [if_neg (by simp [hbh])]
                cases hcomp : chatCompletion o (st.conversation ++ [⟨Role.user, userText⟩]) with
                | error e =>
                  simp only [hcomp]
                  exact ⟨[⟨Role.user, userText⟩], by simp⟩
                | ok assistantText =>
                  simp only [hcomp]
                  cases htts : textToSpeech o assistantText with
                  | error e =>
                    simp only [htts]
                    exact ⟨[⟨Role.user, userText⟩, ⟨Role.assistant, assistantText⟩], by simp⟩
                  | ok pcm =>
                    simp only [htts]
                    exact ⟨[⟨Role.user, userText⟩, ⟨Role.assistant, assistantText⟩], by simp⟩

/-- Shape of the transcript after any sequence of events: the seeded
system turn stays first and every later turn is non-system. -/
theorem runEvents_shape (cfg : Config) (events : List (Oracle × RawFrame)) (st : Session)
    (h : ∃ rest : List Turn,
      st.conversation = ⟨Role.system, cfg.systemPrompt⟩ :: rest ∧
      rest.all (fun t => !(t.role == Role.system)) = true) :
    ∃ rest : List Turn,
      (runEvents cfg st events).conversation = ⟨Role.system, cfg.systemPrompt⟩ :: rest ∧
      rest.all (fun t => !(t.role == Role.system)) = true := by
  induction events generalizing st with
  | nil => exact h
  | cons e rest ih =>
    obtain ⟨r0, hr0, hall0⟩ := h
    obtain ⟨extra, hext, hallx⟩ := handleMessage_extends cfg e.1 st e.2
    cases e with
    | mk o raw =>
      refine ih (handleMessage cfg o st raw).1 ⟨r0 ++ extra, ?_, ?_⟩
      · simpa [hr0] using hext
      · simp only [List.all_append, Bool.and_eq_true]
        exact ⟨hall0, hallx⟩

/-
  Claim theorems.
-/

/-- C8: a media event whose transcription is empty after trimming
whitespace is dropped silently: the session is unchanged (still
ACTIVE), the only effect is the transcription call itself — no Turn,
no outbound frame, no log. -/
theorem emptyTranscription_silentDrop (cfg : Config) (o : Oracle) (st : Session)
    (payload s : String)
    (hA : st.callActive = true)
    (hstt : o.sttRaw payload = Except.ok s)
    (hempty : jsTrim s = "") :
    handleMessage cfg o st (RawFrame.parsed "media" (some payload)) =
      (st, [Effect.sttCall]) := by
  unfold handleMessage
  simp [hA, speechToText, hstt, Except.map, hempty]

/-- Witness for C8 at a whitespace-only transcription. -/
theorem emptyTranscription_silentDrop_witness :
    ((initialSession cfg0).callActive = true ∧
     oBlankStt.sttRaw "payloadA" = Except.ok "   " ∧
     jsTrim "   " = "") ∧
    handleMessage cfg0 oBlankStt (initialSession cfg0)
        (RawFrame.parsed "media" (some "payloadA")) =
      (initialSession cfg0, [Effect.sttCall]) :=
  ⟨⟨rfl, rfl, by decide⟩,
   emptyTranscription_silentDrop cfg0 oBlankStt (initialSession cfg0) "payloadA" "   "
     rfl rfl (by decide)⟩

/-- C7: a media event with a non-empty transcription processed outside
business hours appends the fixed after-hours message as an assistant
Turn and sends it as an outbound frame (given synthesis succeeds), with
zero completion-engine invocations and zero dispatch calls. -/
theorem afterHours_branch (cfg : Config) (o : Oracle) (st : Session)
    (payload u pcm : String)
    (hA : st.callActive = true)
    (hstt : speechToText o payload = Except.ok u)
    (hu : (u == "") = false)
    (hbh : o.businessHours = false)
    (htts : textToSpeech o afterHoursText = Except.ok pcm) :
    handleMessage cfg o st (RawFrame.parsed "media" (some payload)) =
      ({ st with conversation :=
           st.conversation ++ [⟨Role.user, u⟩, ⟨Role.assistant, afterHoursText⟩] },
       [Effect.sttCall, Effect.ttsCall afterHoursText, Effect.send pcm]) ∧
    (handleMessage cfg o st (RawFrame.parsed "media" (some payload))).2.countP
        isCompletionCall = 0 ∧
    (handleMessage cfg o st (RawFrame.parsed "media" (some payload))).2.countP
        isDispatchCall = 0 := by
  rw [handleMessage_afterHours_eq cfg o st payload u hA hstt hu hbh]
  simp [htts, isCompletionCall, isDispatchCall]

/-- Witness for C7 outside business hours. -/
theorem afterHours_branch_witness :
    ((initialSession cfg0).callActive = true ∧
     speechToText oAfterHours "payloadA" = Except.ok "Alpha" ∧
     (("Alpha" == "") = false) ∧
     oAfterHours.businessHours = false ∧
     textToSpeech oAfterHours afterHoursText = Except.ok "pcmAfterHours") ∧
    (handleMessage cfg0 oAfterHours (initialSession cfg0)
        (RawFrame.parsed "media" (some "payloadA")) =
      ({ initialSession cfg0 with conversation :=
           (initialSession cfg0).conversation ++
             [⟨Role.user, "Alpha"⟩, ⟨Role.assistant, afterHoursText⟩] },
       [Effect.sttCall, Effect.ttsCall afterHoursText, Effect.send "pcmAfterHours"]) ∧
    (handleMessage cfg0 oAfterHours (initialSession cfg0)
        (RawFrame.parsed "media" (some "payloadA"))).2.countP isCompletionCall = 0 ∧
    (handleMessage cfg0 oAfterHours (initialSession cfg0)
        (RawFrame.parsed "media" (some "payloadA"))).2.countP isDispatchCall = 0) :=
  ⟨⟨rfl, rfl, by decide, rfl, rfl⟩,
   afterHours_branch cfg0 oAfterHours (initialSession cfg0) "payloadA" "Alpha"
     "pcmAfterHours" rfl rfl (by decide) rfl rfl⟩

/-- C5 counterexample: with the completion engine failing on an event
processed in ACTIVE state inside business hours, the transcript is NOT
unchanged — the user Turn pushed before the completion call remains. -/
theorem completionFailure_transcript_changed :
    ((handleMessage cfgFull oCompletionFail (initialSession cfgFull) mediaFrameA).1.conversation
        == (initialSession cfgFull).conversation) = false ∧
    (handleMessage cfgFull oCompletionFail (initialSession cfgFull) mediaFrameA).1.conversation
      = (initialSession cfgFull).conversation ++ [⟨Role.user, "Alpha"⟩] := by
  exact ⟨by decide, by decide⟩

/-- C5 (amended): on a completion-engine failure the event's user Turn
remains appended, but no assistant Turn is appended, no reply is sent
(the only effects are the transcription call, the failed completion
call and the log), and the session continues ACTIVE. -/
theorem completionFailure_drop (cfg : Config) (o : Oracle) (st : Session)
    (payload u : String)
    (hA : st.callActive = true)
    (hstt : speechToText o payload = Except.ok u)
    (hu : (u == "") = false)
    (hbh : o.businessHours = true)
    (hcomp : chatCompletion o (st.conversation ++ [⟨Role.user, u⟩]) = Except.error ()) :
    handleMessage cfg o st (RawFrame.parsed "media" (some payload)) =
      ({ st with conversation := st.conversation ++ [⟨Role.user, u⟩] },
       [Effect.sttCall, Effect.completionCall (st.conversation ++ [⟨Role.user, u⟩]),
        Effect.log "Error processing media"]) := by
  unfold handleMessage
  simp only [hA, Bool.not_true, Bool.false_eq_true, if_false, ite_false, hstt, hbh,
    beq_self_eq_true, if_true, ite_true]
  rw [if_neg (by simp [hu])]
  simp [hcomp]

/-- Witness for the amended C5 at a failing completion call. -/
theorem completionFailure_drop_witness :
    ((initialSession cfgFull).callActive = true ∧
     speechToText oCompletionFail "payloadA" = Except.ok "Alpha" ∧
     (("Alpha" == "") = false) ∧
     oCompletionFail.businessHours = true ∧
     chatCompletion oCompletionFail
         ((initialSession cfgFull).conversation ++ [⟨Role.user, "Alpha"⟩]) =
       Except.error ()) ∧
    handleMessage cfgFull oCompletionFail (initialSession cfgFull)
        (RawFrame.parsed "media" (some "payloadA")) =
      ({ initialSession cfgFull with conversation :=
           (initialSession cfgFull).conversation ++ [⟨Role.user, "Alpha"⟩] },
       [Effect.sttCall,
        Effect.completionCall ((initialSession cfgFull).conversation ++ [⟨Role.user, "Alpha"⟩]),
        Effect.log "Error processing media"]) :=
  ⟨⟨rfl, rfl, by decide, rfl, rfl⟩,
   completionFailure_drop cfgFull oCompletionFail (initialSession cfgFull) "payloadA"
     "Alpha" rfl rfl (by decide) rfl rfl⟩

/-- C4 counterexample: an inbound frame whose text is not valid JSON
makes `JSON.parse` (line 113) throw OUTSIDE the try/catch: the error
escapes the handler uncaught and nothing is logged at the
event-processing boundary, contrary to the claim that every malformed
frame is caught and logged there. -/
theorem malformedJson_uncaught :
    handleMessage cfg0 oAlpha (initialSession cfg0) RawFrame.invalidJson =
      (initialSession cfg0, [Effect.uncaught]) ∧
    (handleMessage cfg0 oAlpha (initialSession cfg0) RawFrame.invalidJson).2.countP
        isLogEffect = 0 ∧
    (handleMessage cfg0 oAlpha (initialSession cfg0) RawFrame.invalidJson).2.countP
        isUncaughtEffect = 1 := by
  exact ⟨by decide, by decide, by decide⟩

/-- C4 (amended): a malformed media reference inside a valid JSON frame
(missing `media`/`payload`) is caught at the boundary, logged, and the
event dropped with the session unchanged and still ACTIVE; but a frame
whose JSON cannot be parsed raises an error that escapes the handler
uncaught and unlogged. -/
theorem malformedFrame_handling (cfg : Config) (o : Oracle) (st : Session)
    (hA : st.callActive = true) :
    handleMessage cfg o st (RawFrame.parsed "media" none) =
      (st, [Effect.log "Error processing media"]) ∧
    handleMessage cfg o st RawFrame.invalidJson = (st, [Effect.uncaught]) := by
  unfold handleMessage
  simp [hA]

/-- Witness for the amended C4. -/
theorem malformedFrame_handling_witness :
    (initialSession cfg0).callActive = true ∧
    (handleMessage cfg0 oAlpha (initialSession cfg0) (RawFrame.parsed "media" none) =
      (initialSession cfg0, [Effect.log "Error processing media"]) ∧
    handleMessage cfg0 oAlpha (initialSession cfg0) RawFrame.invalidJson =
      (initialSession cfg0, [Effect.uncaught])) :=
  ⟨rfl, malformedFrame_handling cfg0 oAlpha (initialSession cfg0) rfl⟩

/-- C6: on the business-hours path with a successful completion, the
dispatcher is invoked exactly once when the keyword test passes and
both follow-up settings are configured, and zero times otherwise (with
no error raised); and neither the assistant Turn nor the outbound
reply depends on the dispatch outcome — the final state and the sent
frames are fixed by the completion and synthesis results alone. -/
theorem dispatch_isolation (cfg : Config) (o : Oracle) (st : Session)
    (payload u t : String)
    (hA : st.callActive = true)
    (hstt : speechToText o payload = Except.ok u)
    (hu : (u == "") = false)
    (hbh : o.businessHours = true)
    (hcomp : chatCompletion o (st.conversation ++ [⟨Role.user, u⟩]) = Except.ok t) :
    (handleMessage cfg o st (RawFrame.parsed "media" (some payload))).2.countP
        isDispatchCall =
      (if keywordRegexTest t && !(cfg.calendlyLink == "") && !(cfg.callerPhone == "")
       then 1 else 0) ∧
    (handleMessage cfg o st (RawFrame.parsed "media" (some payload))).1 =
      { st with conversation := st.conversation ++ [⟨Role.user, u⟩, ⟨Role.assistant, t⟩] } ∧
    (handleMessage cfg o st (RawFrame.parsed "media" (some payload))).2.countP
        isUncaughtEffect = 0 ∧
    (handleMessage cfg o st (RawFrame.parsed "media" (some payload))).2.filter
        isSendEffect =
      (match textToSpeech o t with
       | Except.error _ => []
       | Except.ok pcm => [Effect.send pcm]) := by
  rw [handleMessage_business_eq cfg o st payload u t hA hstt hu hbh hcomp]
  cases hq : (keywordRegexTest t && !(cfg.calendlyLink == "") && !(cfg.callerPhone == "")) <;>
    cases hsms : o.smsOk <;>
      cases htts : textToSpeech o t <;>
        simp [hq, hsms, htts, List.countP_append, List.countP_cons, List.filter_append,
          isDispatchCall, isUncaughtEffect, isSendEffect]

/-- Witness for C6 with a qualifying reply and both settings present. -/
theorem dispatch_isolation_witness :
    ((initialSession cfgFull).callActive = true ∧
     speechToText oSchedule "payloadA" = Except.ok "Alpha" ∧
     (("Alpha" == "") = false) ∧
     oSchedule.businessHours = true ∧
     chatCompletion oSchedule
         ((initialSession cfgFull).conversation ++ [⟨Role.user, "Alpha"⟩]) =
       Except.ok "We can schedule a consultation.") ∧
    ((handleMessage cfgFull oSchedule (initialSession cfgFull)
        (RawFrame.parsed "media" (some "payloadA"))).2.countP isDispatchCall =
      (if keywordRegexTest "We can schedule a consultation." &&
            !(cfgFull.calendlyLink == "") && !(cfgFull.callerPhone == "")
       then 1 else 0) ∧
    (handleMessage cfgFull oSchedule (initialSession cfgFull)
        (RawFrame.parsed "media" (some "payloadA"))).1 =
      { initialSession cfgFull with conversation :=
          (initialSession cfgFull).conversation ++
            [⟨Role.user, "Alpha"⟩, ⟨Role.assistant, "We can schedule a consultation."⟩] } ∧
    (handleMessage cfgFull oSchedule (initialSession cfgFull)
        (RawFrame.parsed "media" (some "payloadA"))).2.countP isUncaughtEffect = 0 ∧
    (handleMessage cfgFull oSchedule (initialSession cfgFull)
        (RawFrame.parsed "media" (some "payloadA"))).2.filter isSendEffect =
      (match textToSpeech oSchedule "We can schedule a consultation." with
       | Except.error _ => []
       | Except.ok pcm => [Effect.send pcm])) :=
  ⟨⟨rfl, rfl, by decide, rfl, rfl⟩,
   dispatch_isolation cfgFull oSchedule (initialSession cfgFull) "payloadA" "Alpha"
     "We can schedule a consultation." rfl rfl (by decide) rfl rfl⟩

/-- C1 counterexample: inside business hours with both follow-up
settings configured, an assistant reply containing the SUBSTRING "book"
(inside the word "booking") produces ZERO dispatch calls, because the
code's regex requires whole-word matches — contrary to the claim that
substring containment triggers the dispatch. -/
theorem keywordSubstring_refuted :
    specKeywordSubstringCI "Thanks for booking a consultation." = true ∧
    (!(cfgFull.calendlyLink == "")) = true ∧
    (!(cfgFull.callerPhone == "")) = true ∧
    oBooking.businessHours = true ∧
    chatCompletion oBooking ((initialSession cfgFull).conversation ++ [⟨Role.user, "Alpha"⟩]) =
      Except.ok "Thanks for booking a consultation." ∧
    keywordRegexTest "Thanks for booking a consultation." = false ∧
    (handleMessage cfgFull oBooking (initialSession cfgFull) mediaFrameA).2.countP
        isDispatchCall = 0 :=
  ⟨by decide, by decide, by decide, rfl, rfl, by decide, by decide⟩

/-- C1 (amended): inside business hours with a successful completion,
the dispatch fires exactly when the lowercased assistant text contains
"schedule" or "book" as a WHOLE WORD (the regex with word boundaries),
and both the follow-up link and contact are configured; it is
suppressed otherwise. -/
theorem dispatch_iff_wholeWordMatch (cfg : Config) (o : Oracle) (st : Session)
    (payload u t : String)
    (hA : st.callActive = true)
    (hstt : speechToText o payload = Except.ok u)
    (hu : (u == "") = false)
    (hbh : o.businessHours = true)
    (hcomp : chatCompletion o (st.conversation ++ [⟨Role.user, u⟩]) = Except.ok t) :
    ((handleMessage cfg o st (RawFrame.parsed "media" (some payload))).2.countP
        isDispatchCall = 1 ↔
      (keywordRegexTest t && !(cfg.calendlyLink == "") && !(cfg.callerPhone == "")) = true) ∧
    ((handleMessage cfg o st (RawFrame.parsed "media" (some payload))).2.countP
        isDispatchCall = 0 ↔
      (keywordRegexTest t && !(cfg.calendlyLink == "") && !(cfg.callerPhone == "")) = false) := by
  rw [handleMessage_business_eq cfg o st payload u t hA hstt hu hbh hcomp]
  cases hq : (keywordRegexTest t && !(cfg.calendlyLink == "") && !(cfg.callerPhone == "")) <;>
    cases hsms : o.smsOk <;>
      cases htts : textToSpeech o t <;>
        simp [hq, hsms, htts, List.countP_append, List.countP_cons, isDispatchCall]

/-- Witness for the amended C1 with a whole-word "schedule" reply. -/
theorem dispatch_iff_wholeWordMatch_witness :
    ((initialSession cfgFull).callActive = true ∧
     speechToText oSchedule "payloadA" = Except.ok "Alpha" ∧
     (("Alpha" == "") = false) ∧
     oSchedule.businessHours = true ∧
     chatCompletion oSchedule
         ((initialSession cfgFull).conversation ++ [⟨Role.user, "Alpha"⟩]) =
       Except.ok "We can schedule a consultation.") ∧
    (((handleMessage cfgFull oSchedule (initialSession cfgFull)
        (RawFrame.parsed "media" (some "payloadA"))).2.countP isDispatchCall = 1 ↔
      (keywordRegexTest "We can schedule a consultation." &&
        !(cfgFull.calendlyLink == "") && !(cfgFull.callerPhone == "")) = true) ∧
    ((handleMessage cfgFull oSchedule (initialSession cfgFull)
        (RawFrame.parsed "media" (some "payloadA"))).2.countP isDispatchCall = 0 ↔
      (keywordRegexTest "We can schedule a consultation." &&
        !(cfgFull.calendlyLink == "") && !(cfgFull.callerPhone == "")) = false)) :=
  ⟨⟨rfl, rfl, by decide, rfl, rfl⟩,
   dispatch_iff_wholeWordMatch cfgFull oSchedule (initialSession cfgFull) "payloadA"
     "Alpha" "We can schedule a consultation." rfl rfl (by decide) rfl rfl⟩

/-- C10: when the completion succeeds with empty text, the assistant
Turn with empty content is still appended, the keyword scan still runs
(and cannot match), and the empty text is still synthesized and sent
as an outbound frame — unlike an empty user transcription. -/
theorem emptyAssistantReply_notFiltered (cfg : Config) (o : Oracle) (st : Session)
    (payload u pcm : String)
    (hA : st.callActive = true)
    (hstt : speechToText o payload = Except.ok u)
    (hu : (u == "") = false)
    (hbh : o.businessHours = true)
    (hcomp : chatCompletion o (st.conversation ++ [⟨Role.user, u⟩]) = Except.ok "")
    (htts : textToSpeech o "" = Except.ok pcm) :
    handleMessage cfg o st (RawFrame.parsed "media" (some payload)) =
      ({ st with conversation := st.conversation ++ [⟨Role.user, u⟩, ⟨Role.assistant, ""⟩] },
       [Effect.sttCall, Effect.completionCall (st.conversation ++ [⟨Role.user, u⟩]),
        Effect.ttsCall "", Effect.send pcm]) ∧
    keywordRegexTest "" = false := by
  have hk : keywordRegexTest "" = false := by decide
  rw [handleMessage_business_eq cfg o st payload u "" hA hstt hu hbh hcomp]
  simp [hk, htts]

/-- Witness for C10 with a null completion content. -/
theorem emptyAssistantReply_notFiltered_witness :
    ((initialSession cfgFull).callActive = true ∧
     speechToText oEmptyReply "payloadA" = Except.ok "Alpha" ∧
     (("Alpha" == "") = false) ∧
     oEmptyReply.businessHours = true ∧
     chatCompletion oEmptyReply
         ((initialSession cfgFull).conversation ++ [⟨Role.user, "Alpha"⟩]) = Except.ok "" ∧
     textToSpeech oEmptyReply "" = Except.ok "pcmEmpty") ∧
    (handleMessage cfgFull oEmptyReply (initialSession cfgFull)
        (RawFrame.parsed "media" (some "payloadA")) =
      ({ initialSession cfgFull with conversation :=
           (initialSession cfgFull).conversation ++
             [⟨Role.user, "Alpha"⟩, ⟨Role.assistant, ""⟩] },
       [Effect.sttCall,
        Effect.completionCall ((initialSession cfgFull).conversation ++ [⟨Role.user, "Alpha"⟩]),
        Effect.ttsCall "", Effect.send "pcmEmpty"]) ∧
    keywordRegexTest "" = false) :=
  ⟨⟨rfl, rfl, by decide, rfl, rfl, rfl⟩,
   emptyAssistantReply_notFiltered cfgFull oEmptyReply (initialSession cfgFull)
     "payloadA" "Alpha" "pcmEmpty" rfl rfl (by decide) rfl rfl rfl⟩

/-- C9: after any sequence of events, the transcript starts with the
single system Turn seeded at session creation, every later turn is
non-system, and every handler run only appends turns (none are mutated
or removed). -/
theorem transcript_system_first (cfg : Config) (events : List (Oracle × RawFrame)) :
    (∃ rest : List Turn,
      (runEvents cfg (initialSession cfg) events).conversation =
        ⟨Role.system, cfg.systemPrompt⟩ :: rest ∧
      rest.all (fun t => !(t.role == Role.system)) = true) ∧
    ∀ (o : Oracle) (st : Session) (raw : RawFrame),
      ∃ extra : List Turn,
        (handleMessage cfg o st raw).1.conversation = st.conversation ++ extra ∧
        extra.all (fun t => !(t.role == Role.system)) = true :=
  ⟨runEvents_shape cfg events (initialSession cfg) ⟨[], rfl, rfl⟩,
   fun o st raw => handleMessage_extends cfg o st raw⟩

/-- C2: a schedule the Node event loop can realize (two media frames
arriving while the first is suspended at its transcription await) runs
the ENTIRE pipeline of event 2 — transcription, user-turn append,
completion, assistant-turn append, synthesis, send — before event 1's
pipeline finishes, leaving the transcript in non-arrival order; there
is no per-session FIFO queue. -/
theorem fifo_ordering_refuted :
    validSched cfg0 worldTwoMedia 2 schedSwap = true ∧
    (runWorld cfg0 worldTwoMedia schedSwap).session.conversation =
      [⟨Role.system, cfg0.systemPrompt⟩, ⟨Role.user, "Bravo"⟩,
       ⟨Role.assistant, "Reply to Bravo"⟩, ⟨Role.user, "Alpha"⟩,
       ⟨Role.assistant, "Reply to Alpha"⟩] ∧
    (runWorld cfg0 worldTwoMedia schedSwap).trace =
      [Effect.sttCall, Effect.sttCall,
       Effect.completionCall [⟨Role.system, cfg0.systemPrompt⟩, ⟨Role.user, "Bravo"⟩],
       Effect.ttsCall "Reply to Bravo", Effect.send "pcmBravo",
       Effect.completionCall
         [⟨Role.system, cfg0.systemPrompt⟩, ⟨Role.user, "Bravo"⟩,
          ⟨Role.assistant, "Reply to Bravo"⟩, ⟨Role.user, "Alpha"⟩],
       Effect.ttsCall "Reply to Alpha", Effect.send "pcmAlpha"] :=
  ⟨by decide, by decide, by decide⟩

/-- C3 counterexample: with a media event suspended at its completion
await, a stop frame sets the session TERMINATED (and closes the
socket), yet the in-flight pipeline then resumes: it appends the
assistant Turn to the frozen transcript and emits the send after the
close — the in-flight result is neither discarded nor unappended. -/
theorem terminationFreeze_refuted :
    validSched cfg0 worldInflightStop 2 schedStopFull = true ∧
    (runWorld cfg0 worldInflightStop schedStopPrefix).session =
      { conversation := [⟨Role.system, cfg0.systemPrompt⟩, ⟨Role.user, "Alpha"⟩],
        callActive := false } ∧
    (runWorld cfg0 worldInflightStop schedStopFull).session.conversation =
      [⟨Role.system, cfg0.systemPrompt⟩, ⟨Role.user, "Alpha"⟩,
       ⟨Role.assistant, "Reply to Alpha"⟩] ∧
    (runWorld cfg0 worldInflightStop schedStopFull).trace =
      [Effect.sttCall,
       Effect.completionCall [⟨Role.system, cfg0.systemPrompt⟩, ⟨Role.user, "Alpha"⟩],
       Effect.close, Effect.ttsCall "Reply to Alpha", Effect.send "pcmAlpha"] :=
  ⟨by decide, by decide, by decide, by decide⟩

/-- C3 (amended): once `callActive = false`, any NEWLY arriving frame
is ignored (the handler returns immediately with no effect), but an
already in-flight pipeline is not cancelled: when its completion call
resolves, its continuation still appends the assistant Turn to the
transcript. -/
theorem termination_guard_and_inflight (cfg : Config) (o : Oracle) (st : Session)
    (raw : RawFrame) (args : List Turn) (t : String)
    (hT : st.callActive = false)
    (hcomp : chatCompletion o args = Except.ok t) :
    handleMessage cfg o st raw = (st, []) ∧
    stepTask cfg o st (TaskPC.start raw) = (st, [], none) ∧
    (stepTask cfg o st (TaskPC.awaitingCompletion args)).1.conversation =
      st.conversation ++ [⟨Role.assistant, t⟩] := by
  refine ⟨?_, ?_, ?_⟩
  · unfold handleMessage
    simp [hT]
  · unfold stepTask
    simp [hT]
  · unfold stepTask
    simp only [hcomp]
    cases hq : (keywordRegexTest t && !(cfg.calendlyLink == "") && !(cfg.callerPhone == "")) <;>
      simp [hq]

/-- A session already terminated by a stop frame. -/
def stTerminated : Session :=
  { conversation := [⟨Role.system, cfg0.systemPrompt⟩], callActive := false }

/-- Witness for the amended C3 at a terminated session. -/
theorem termination_guard_and_inflight_witness :
    (stTerminated.callActive = false ∧
     chatCompletion oAlpha [⟨Role.system, cfg0.systemPrompt⟩, ⟨Role.user, "Alpha"⟩] =
       Except.ok "Reply to Alpha") ∧
    (handleMessage cfg0 oAlpha stTerminated mediaFrameA = (stTerminated, []) ∧
    stepTask cfg0 oAlpha stTerminated (TaskPC.start mediaFrameA) = (stTerminated, [], none) ∧
    (stepTask cfg0 oAlpha stTerminated
        (TaskPC.awaitingCompletion
          [⟨Role.system, cfg0.systemPrompt⟩, ⟨Role.user, "Alpha"⟩])).1.conversation =
      stTerminated.conversation ++ [⟨Role.assistant, "Reply to Alpha"⟩]) :=
  ⟨⟨rfl, rfl⟩,
   termination_guard_and_inflight cfg0 oAlpha stTerminated mediaFrameA
     [⟨Role.system, cfg0.systemPrompt⟩, ⟨Role.user, "Alpha"⟩] "Reply to Alpha" rfl rfl⟩

end Pritcall
